import Mathlib

/-!
Shallow embedding of the trino_mcp gateway core, translated from the
repository sources:

  * `src/trino_mcp/config.py`       — `TrinoConfig`, `connection_params`
  * `src/trino_mcp/trino_client.py` — `TrinoQueryResult`, `TrinoClient`
    (`connect`, `disconnect`, `ensure_connection`, `execute_query`,
    `cancel_query`)
  * `src/trino_mcp/tools/__init__.py` — the `execute_query` and
    `cancel_query` tool handlers
  * `src/trino_mcp/server.py`       — the `/api/query` row-object shaping

The SQL engine (the trino server plus the `trino.dbapi` driver) is an
external collaborator; it is modelled as an oracle (`Engine`) mapping a
connection parameter set to a connect outcome, and a bound catalog plus a
SQL string to either an error message or a raw cursor result.  Wall-clock
time is abstracted: the oracle supplies the elapsed milliseconds as a
natural number.  Connection teardowns, rebuilds and submitted statements
are recorded in an event trace so that reconnection behaviour can be
stated.
-/

/-- Dynamically typed cell / JSON-ish value, as produced by the engine and
returned by tool handlers (Python dicts are modelled as insertion-ordered
association lists). -/
inductive Value where
  | null
  | bool (b : Bool)
  | int (n : Int)
  | str (s : String)
  | list (xs : List Value)
  | dict (fields : List (String × Value))

/-- Python truthiness of an `Optional[str]`: `None` and `""` are falsy. -/
def strTruthy : Option String → Bool
  | none => false
  | some s => !(s == "")

/-- Python `a or b` on two `Optional[str]` values. -/
def pyOr (a b : Option String) : Option String :=
  if strTruthy a then a else b

/-- Python dict assignment `d[k] = v`: an existing key keeps its position
and gets the new value; a fresh key is appended. -/
def dictInsert (d : List (String × Value)) (k : String) (v : Value) :
    List (String × Value) :=
  if d.any (fun p => p.1 == k) then
    d.map (fun p => if p.1 == k then (k, v) else p)
  else
    d ++ [(k, v)]

/-- `config.py` — `TrinoConfig`: configuration for the Trino connection.
`request_timeout` (a float in the source) is abstracted to a natural
number; `auth` (an opaque `Any`) to an opaque string token. -/
structure TrinoConfig where
  host : String := "localhost"
  port : Nat := 8080
  user : String := "trino"
  password : Option String := none
  catalog : Option String := none
  schema : Option String := none
  http_scheme : String := "http"
  auth : Option String := none
  max_attempts : Nat := 3
  request_timeout : Nat := 30
  http_headers : List (String × String) := []
  verify : Bool := true
deriving DecidableEq, Repr

/-- The keyword arguments handed to `trino.dbapi.connect`.  `password`,
`auth` and `http_headers` are `none` when the source omits them from the
dict. -/
structure ConnParams where
  host : String
  port : Nat
  user : String
  catalog : Option String
  http_scheme : String
  max_attempts : Nat
  request_timeout : Nat
  verify : Bool
  password : Option String
  auth : Option String
  http_headers : Option (List (String × String))
deriving DecidableEq, Repr

/-- `config.py` — `TrinoConfig.connection_params`: the base dict always
carries host, port, user, catalog, http_scheme, max_attempts,
request_timeout and verify; password is added `if self.password:`
(truthy), auth `if self.auth:`, http_headers `if self.http_headers:`
(non-empty). -/
def TrinoConfig.connection_params (c : TrinoConfig) : ConnParams :=
  { host := c.host
    port := c.port
    user := c.user
    catalog := c.catalog
    http_scheme := c.http_scheme
    max_attempts := c.max_attempts
    request_timeout := c.request_timeout
    verify := c.verify
    password := if strTruthy c.password then c.password else none
    auth := if c.auth.isSome then c.auth else none
    http_headers := if c.http_headers.isEmpty then none else some c.http_headers }

/-- `trino_client.py` — `TrinoQueryResult`. -/
structure TrinoQueryResult where
  query_id : String
  columns : List String
  rows : List (List Value)
  query_time_ms : Nat
  row_count : Nat

/-- What a cursor exposes after a successful `cursor.execute`:
`cursor.stats["queryId"]`, `cursor.description` (column descriptors, or
`none` when the statement yields no result set) and `cursor.fetchall()`. -/
structure RawResult where
  queryId : String
  description : Option (List String)
  rows : List (List Value)
  timeMs : Nat

/-- The SQL engine as an oracle.  `connectErr p = some e` means
`trino.dbapi.connect(**p)` raises `e`; `exec cat sql` is the outcome of
submitting `sql` on a connection whose bound catalog is `cat`. -/
structure Engine where
  connectErr : ConnParams → Option String
  exec : Option String → String → Except String RawResult

/-- `trino_client.py` — the mutable state of a `TrinoClient`: the config
object it was handed (mutated in place by `execute_query`), the live
connection if any (a connection handle remembers the parameters it was
opened with; its bound catalog is `params.catalog`), and the current
catalog/schema tracking. -/
structure TrinoClient where
  config : TrinoConfig
  conn : Option ConnParams
  current_catalog : Option String
  current_schema : Option String
deriving DecidableEq, Repr

/-- `TrinoClient.__init__`. -/
def TrinoClient.init (config : TrinoConfig) : TrinoClient :=
  { config := config
    conn := none
    current_catalog := config.catalog
    current_schema := config.schema }

/-- Trace events: a connection close, a `trino.dbapi.connect` call with
its parameters, and a statement submitted through a cursor. -/
inductive Event where
  | teardown
  | rebuild (params : ConnParams)
  | stmt (sql : String)
deriving DecidableEq, Repr

/-- `trino_client.py` — `TrinoClient.connect`: builds
`conn_params = self.config.connection_params` and calls
`trino.dbapi.connect(**conn_params)`; a raise leaves `self.conn`
unchanged. -/
def TrinoClient.connect (st : TrinoClient) (eng : Engine) :
    Except String TrinoClient × List Event :=
  let conn_params := st.config.connection_params
  match eng.connectErr conn_params with
  | some e => (Except.error e, [])
  | none => (Except.ok { st with conn := some conn_params },
             [Event.rebuild conn_params])

/-- `trino_client.py` — `TrinoClient.disconnect`: closes the connection if
one exists. -/
def TrinoClient.disconnect (st : TrinoClient) : TrinoClient × List Event :=
  if st.conn.isSome then ({ st with conn := none }, [Event.teardown])
  else (st, [])

/-- `trino_client.py` — `TrinoClient.ensure_connection`:
`if not self.conn: self.connect()`. -/
def TrinoClient.ensure_connection (st : TrinoClient) (eng : Engine) :
    Except String TrinoClient × List Event :=
  if st.conn.isNone then st.connect eng else (Except.ok st, [])

/-- The Python truthiness test `if cursor.description` (`None` and the
empty list are falsy). -/
def descTruthy : Option (List String) → Bool
  | none => false
  | some d => !d.isEmpty

/-- `trino_client.py` — the tail of `execute_query` after the connection
is ensured: `cursor = self.conn.cursor()`, the schema-application
`USE catalog.schema` attempt (its failure is caught and only logged), and
`cursor.execute(sql)` with result extraction. -/
def TrinoClient.runQuery (st : TrinoClient) (eng : Engine) (sql : String) :
    Except String TrinoQueryResult × TrinoClient × List Event :=
  let bound := st.conn.bind (fun p => p.catalog)
  -- if self.current_schema: if self.current_catalog: try USE ... except: log
  let evsUse :=
    if strTruthy st.current_schema && strTruthy st.current_catalog then
      [Event.stmt ("USE " ++ (st.current_catalog.getD "") ++ "."
                    ++ (st.current_schema.getD ""))]
    else []
  -- try: cursor.execute(sql) ... except: raise
  match eng.exec bound sql with
  | Except.error e => (Except.error e, st, evsUse ++ [Event.stmt sql])
  | Except.ok raw =>
    -- columns = [desc[0] for desc in cursor.description] if cursor.description else []
    -- rows = cursor.fetchall() if cursor.description else []
    let columns := if descTruthy raw.description then raw.description.getD [] else []
    let rows := if descTruthy raw.description then raw.rows else []
    (Except.ok
      { query_id := raw.queryId
        columns := columns
        rows := rows
        query_time_ms := raw.timeMs
        row_count := rows.length }, st, evsUse ++ [Event.stmt sql])

/-- `trino_client.py` — the catalog/schema bookkeeping prefix of
`execute_query` (everything before `self.ensure_connection()`),
statement by statement. -/
def TrinoClient.rebindForCatalog (st₀ : TrinoClient)
    (catalog schema : Option String) : TrinoClient × List Event :=
  -- use_catalog = catalog or self.current_catalog
  let use_catalog := pyOr catalog st₀.current_catalog
  -- if self.conn and (use_catalog != self.current_catalog): self.disconnect()
  let (st₁, evs₁) :=
    if st₀.conn.isSome && decide (use_catalog ≠ st₀.current_catalog) then
      st₀.disconnect
    else (st₀, [])
  -- self.current_catalog = use_catalog
  let st₂ := { st₁ with current_catalog := use_catalog }
  -- if schema: self.current_schema = schema
  let st₃ := if strTruthy schema then { st₂ with current_schema := schema } else st₂
  -- if use_catalog: self.config.catalog = use_catalog
  let st₄ :=
    if strTruthy use_catalog then
      { st₃ with config := { st₃.config with catalog := use_catalog } }
    else st₃
  (st₄, evs₁)

/-- `trino_client.py` — `TrinoClient.execute_query(sql, catalog, schema)`:
the bookkeeping prefix, then `self.ensure_connection()`, then the cursor
phase.  Returns the raised-or-returned outcome, the client state after
the call, and the event trace of the call. -/
def TrinoClient.execute_query (eng : Engine) (st₀ : TrinoClient) (sql : String)
    (catalog : Option String := none) (schema : Option String := none) :
    Except String TrinoQueryResult × TrinoClient × List Event :=
  let (st₄, evs₁) := st₀.rebindForCatalog catalog schema
  -- self.ensure_connection()
  match st₄.ensure_connection eng with
  | (Except.error e, evs₂) => (Except.error e, st₄, evs₁ ++ evs₂)
  | (Except.ok st₅, evs₂) =>
    let (r, st₆, evs₃) := st₅.runQuery eng sql
    (r, st₆, evs₁ ++ evs₂ ++ evs₃)

/-- An apostrophe character, used when assembling the engine kill
statement. -/
def apos : String := String.singleton (Char.ofNat 39)

/-- The f-string
`f"CALL system.runtime.kill_query(query_id => '{query_id}')"` from
`TrinoClient.cancel_query`. -/
def killQuerySql (query_id : String) : String :=
  "CALL system.runtime.kill_query(query_id => " ++ apos ++ query_id ++ apos ++ ")"

/-- `trino_client.py` — `TrinoClient.cancel_query(query_id)`:
`ensure_connection` runs outside the try/except (its failures propagate);
the engine kill statement runs inside it (its failures yield `False`). -/
def TrinoClient.cancel_query (eng : Engine) (st₀ : TrinoClient)
    (query_id : String) :
    Except String Bool × TrinoClient × List Event :=
  -- self.ensure_connection()  (outside the try/except)
  match st₀.ensure_connection eng with
  | (Except.error e, evs₁) => (Except.error e, st₀, evs₁)
  | (Except.ok st₁, evs₁) =>
    -- try: self.execute_query("CALL system.runtime.kill_query(query_id => '...')")
    let (r, st₂, evs₂) := TrinoClient.execute_query eng st₁ (killQuerySql query_id)
    match r with
    | Except.ok _ => (Except.ok true, st₂, evs₁ ++ evs₂)
    | Except.error _ => (Except.ok false, st₂, evs₁ ++ evs₂)

/-- The inner loop of the tool handler's preview formatting and of the
`/api/query` row shaping: `for j, col in enumerate(columns): row_dict[col]
= row[j]`.  An out-of-range index raises (Python `IndexError`), which the
surrounding handler catches. -/
def buildRowDict (columns : List String) (row : List Value) :
    Except String (List (String × Value)) :=
  columns.enum.foldlM
    (fun d jc =>
      match row.get? jc.1 with
      | some v => Except.ok (dictInsert d jc.2 v)
      | none => Except.error "list index out of range")
    []

/-- `tools/__init__.py` — the preview block of the `execute_query` tool
handler: `max_preview_rows = min(20, len(result.rows))`, then each of the
first `max_preview_rows` positional rows is converted into a name-keyed
dict. -/
def previewRows (columns : List String) (rows : List (List Value)) :
    Except String (List (List (String × Value))) :=
  (rows.take 20).mapM (buildRowDict columns)

/-- `server.py` — the `/api/query` endpoint's row shaping: every row of
the result (unbounded) is converted into a name-keyed dict. -/
def apiFormatRows (columns : List String) (rows : List (List Value)) :
    Except String (List (List (String × Value))) :=
  rows.mapM (buildRowDict columns)

/-- `tools/__init__.py` — the `execute_query` tool handler: the whole body
sits in one try/except; any raised error is returned as
`{"error": msg, "query": sql}`. -/
def toolExecuteQuery (eng : Engine) (st : TrinoClient) (sql : String)
    (catalog : Option String := none) (schema : Option String := none) :
    Value × TrinoClient :=
  let (r, st2, _) := TrinoClient.execute_query eng st sql catalog schema
  match r with
  | Except.error e =>
    (Value.dict [("error", Value.str e), ("query", Value.str sql)], st2)
  | Except.ok result =>
    match previewRows result.columns result.rows with
    | Except.error e =>
      (Value.dict [("error", Value.str e), ("query", Value.str sql)], st2)
    | Except.ok prows =>
      (Value.dict
        [("query_id", Value.str result.query_id),
         ("columns", Value.list (result.columns.map Value.str)),
         ("row_count", Value.int result.row_count),
         ("query_time_ms", Value.int result.query_time_ms),
         ("preview_rows", Value.list (prows.map Value.dict)),
         ("resource_path", Value.str ("trino://query/" ++ result.query_id))],
       st2)

/-- `tools/__init__.py` — the `cancel_query` tool handler:
`client.cancel_query` returning `True`/`False` yields a
`{"success", "message"}` dict; an exception raised by it yields
`{"success": false, "error": msg, "query_id": id}`. -/
def toolCancelQuery (eng : Engine) (st : TrinoClient) (query_id : String) :
    Value × TrinoClient :=
  let (r, st2, _) := TrinoClient.cancel_query eng st query_id
  match r with
  | Except.ok true =>
    (Value.dict
      [("success", Value.bool true),
       ("message", Value.str ("Query " ++ query_id ++ " cancelled successfully"))],
     st2)
  | Except.ok false =>
    (Value.dict
      [("success", Value.bool false),
       ("message", Value.str ("Failed to cancel query " ++ query_id))],
     st2)
  | Except.error e =>
    (Value.dict
      [("success", Value.bool false), ("error", Value.str e),
       ("query_id", Value.str query_id)],
     st2)

/-!
Interleaving model for concurrent `execute_query` calls.

`execute_query` has no lock; when the protocol runtime delivers tool calls
on separate threads, its statements interleave on the shared
`TrinoClient`.  Each thread runs the statements of
`execute_query(sql, catalog, schema=None)` as atomic steps (connects
assumed to succeed); `submittedOn` records the connection's bound catalog
at the moment `cursor.execute(sql)` is issued.
-/

/-- Per-thread view of one in-flight `execute_query(sql, catalog)` call:
the call's `catalog` argument, the local `use_catalog` variable, the bound
catalog observed at query submission, and a program counter. -/
structure ThreadState where
  arg : Option String
  useCatalog : Option String := none
  submittedOn : Option (Option String) := none
  pc : Nat := 0
deriving DecidableEq, Repr

/-- One atomic statement of `execute_query` (schema argument `None`,
connect succeeding), acting on the shared client `sh` and the thread
state `t`. -/
def execStep (sh : TrinoClient) (t : ThreadState) : TrinoClient × ThreadState :=
  match t.pc with
  | 0 => -- use_catalog = catalog or self.current_catalog
    (sh, { t with useCatalog := pyOr t.arg sh.current_catalog, pc := 1 })
  | 1 => -- if self.conn and (use_catalog != self.current_catalog): self.disconnect()
    if sh.conn.isSome && decide (t.useCatalog ≠ sh.current_catalog) then
      ({ sh with conn := none }, { t with pc := 2 })
    else
      (sh, { t with pc := 2 })
  | 2 => -- self.current_catalog = use_catalog
    ({ sh with current_catalog := t.useCatalog }, { t with pc := 3 })
  | 3 => -- if use_catalog: self.config.catalog = use_catalog
    if strTruthy t.useCatalog then
      ({ sh with config := { sh.config with catalog := t.useCatalog } },
       { t with pc := 4 })
    else
      (sh, { t with pc := 4 })
  | 4 => -- self.ensure_connection()
    if sh.conn.isNone then
      ({ sh with conn := some sh.config.connection_params }, { t with pc := 5 })
    else
      (sh, { t with pc := 5 })
  | 5 => -- cursor.execute(sql): the query runs on the currently bound catalog
    (sh, { t with submittedOn := some (sh.conn.bind (fun p => p.catalog)), pc := 6 })
  | _ => (sh, t)

/-- Run two in-flight `execute_query` calls `a` and `b` under a schedule:
`true` steps thread `a`, `false` steps thread `b`. -/
def runSched : List Bool → TrinoClient → ThreadState → ThreadState →
    TrinoClient × ThreadState × ThreadState
  | [], sh, a, b => (sh, a, b)
  | true :: rest, sh, a, b =>
    let (sh2, a2) := execStep sh a
    runSched rest sh2 a2 b
  | false :: rest, sh, a, b =>
    let (sh2, b2) := execStep sh b
    runSched rest sh2 a b2

/-! ### Concrete fixtures used by witnesses and counterexamples -/

/-- The keys of a dict value, in insertion order. -/
def Value.keys : Value → List String
  | Value.dict fs => fs.map (fun p => p.1)
  | _ => []

/-- A configuration whose construction-time default catalog is `hive`. -/
def hiveConfig : TrinoConfig := { catalog := some "hive" }

/-- A one-row, one-column raw cursor result (`SELECT 1 AS x`). -/
def sampleRaw : RawResult :=
  { queryId := "q1", description := some ["x"], rows := [[Value.int 1]], timeMs := 5 }

/-- An engine on which connects always succeed and every statement returns
`sampleRaw`. -/
def okEngine : Engine := ⟨fun _ => none, fun _ _ => Except.ok sampleRaw⟩

/-- An engine on which connects succeed but every statement errors
(e.g. the SQL is syntactically invalid). -/
def sqlFailEngine : Engine :=
  ⟨fun _ => none, fun _ _ => Except.error "line 1:1: mismatched input"⟩

/-- An engine that refuses every connection attempt. -/
def noConnectEngine : Engine :=
  ⟨fun _ => some "connection refused", fun _ _ => Except.error "not connected"⟩

/-- An engine on which connects succeed, the statement
`USE hive.default` errors, and every other statement returns
`sampleRaw`. -/
def useFailEngine : Engine :=
  ⟨fun _ => none,
   fun _ sql => if sql == "USE hive.default" then Except.error "Schema not found"
                else Except.ok sampleRaw⟩

/-! ### Helper lemmas -/

/-- `runQuery` never changes the client state. -/
lemma runQuery_state (st : TrinoClient) (eng : Engine) (sql : String) :
    (st.runQuery eng sql).2.1 = st := by
  simp only [TrinoClient.runQuery]
  cases hE : eng.exec (st.conn.bind (fun p => p.catalog)) sql <;> simp [hE]

/-- Characterization of a successful `runQuery`. -/
lemma runQuery_ok (st : TrinoClient) (eng : Engine) (sql : String)
    (r : TrinoQueryResult) (st' : TrinoClient) (evs : List Event)
    (h : st.runQuery eng sql = (Except.ok r, st', evs)) :
    st' = st ∧ ∃ raw, eng.exec (st.conn.bind (fun p => p.catalog)) sql = Except.ok raw ∧
      r = { query_id := raw.queryId
            columns := if descTruthy raw.description then raw.description.getD [] else []
            rows := if descTruthy raw.description then raw.rows else []
            query_time_ms := raw.timeMs
            row_count := (if descTruthy raw.description then raw.rows else []).length } := by
  simp only [TrinoClient.runQuery] at h
  cases hE : eng.exec (st.conn.bind (fun p => p.catalog)) sql with
  | error e => rw [hE] at h; simp at h
  | ok raw =>
    rw [hE] at h
    simp only [Prod.mk.injEq, Except.ok.injEq] at h
    exact ⟨h.2.1.symm, raw, rfl, h.1.symm⟩

/-- A successful `execute_query` call got its result from `runQuery` on
the final state. -/
lemma execute_query_ok (eng : Engine) (st₀ : TrinoClient) (sql : String)
    (catalog schema : Option String) (r : TrinoQueryResult)
    (st' : TrinoClient) (evs : List Event)
    (h : TrinoClient.execute_query eng st₀ sql catalog schema = (Except.ok r, st', evs)) :
    ∃ evs', st'.runQuery eng sql = (Except.ok r, st', evs') := by
  simp only [TrinoClient.execute_query] at h
  rcases hE : ((st₀.rebindForCatalog catalog schema).1.ensure_connection eng) with ⟨res, evs₂⟩
  rw [hE] at h
  cases res with
  | error e => simp at h
  | ok st₅ =>
    dsimp only at h
    simp only [Prod.mk.injEq] at h
    obtain ⟨h1, h2, _⟩ := h
    have hs : st' = st₅ := by rw [← h2, runQuery_state]
    refine ⟨(st₅.runQuery eng sql).2.2, ?_⟩
    rw [hs]
    exact Prod.ext h1 (Prod.ext (runQuery_state st₅ eng sql) rfl)

/-- The bookkeeping prefix never touches configuration fields other than
`catalog`, and sets `catalog` to the effective catalog when truthy. -/
lemma rebind_config (st : TrinoClient) (catalog schema : Option String) :
    (st.rebindForCatalog catalog schema).1.config
      = { st.config with
          catalog := if strTruthy (pyOr catalog st.current_catalog) then
              pyOr catalog st.current_catalog
            else st.config.catalog } := by
  simp only [TrinoClient.rebindForCatalog, TrinoClient.disconnect]
  split_ifs <;> rfl

/-- The bookkeeping prefix sets `current_catalog` to the effective
catalog. -/
lemma rebind_current_catalog (st : TrinoClient) (catalog schema : Option String) :
    (st.rebindForCatalog catalog schema).1.current_catalog
      = pyOr catalog st.current_catalog := by
  simp only [TrinoClient.rebindForCatalog, TrinoClient.disconnect]
  split_ifs <;> rfl

/-- The bookkeeping prefix updates `current_schema` only when the call
passes a truthy schema. -/
lemma rebind_current_schema (st : TrinoClient) (catalog schema : Option String) :
    (st.rebindForCatalog catalog schema).1.current_schema
      = if strTruthy schema then schema else st.current_schema := by
  simp only [TrinoClient.rebindForCatalog, TrinoClient.disconnect]
  split_ifs <;> rfl

/-- The bookkeeping prefix drops the connection exactly when one exists
and the effective catalog differs from the current one. -/
lemma rebind_conn (st : TrinoClient) (catalog schema : Option String) :
    (st.rebindForCatalog catalog schema).1.conn
      = if st.conn.isSome && decide (pyOr catalog st.current_catalog ≠ st.current_catalog)
        then none else st.conn := by
  simp only [TrinoClient.rebindForCatalog, TrinoClient.disconnect]
  split_ifs <;> simp_all

/-- The bookkeeping prefix emits exactly one teardown when it drops the
connection, and nothing otherwise. -/
lemma rebind_evs (st : TrinoClient) (catalog schema : Option String) :
    (st.rebindForCatalog catalog schema).2
      = if st.conn.isSome && decide (pyOr catalog st.current_catalog ≠ st.current_catalog)
        then [Event.teardown] else [] := by
  simp only [TrinoClient.rebindForCatalog, TrinoClient.disconnect]
  split_ifs <;> simp_all

/-- Characterization of a successful `ensure_connection`. -/
lemma ensure_ok (st : TrinoClient) (eng : Engine) (st' : TrinoClient)
    (evs : List Event) (h : st.ensure_connection eng = (Except.ok st', evs)) :
    st'.config = st.config ∧ st'.current_catalog = st.current_catalog ∧
    st'.current_schema = st.current_schema ∧
    ((st.conn.isSome ∧ st' = st ∧ evs = []) ∨
     (st.conn = none ∧ eng.connectErr st.config.connection_params = none ∧
      st' = { st with conn := some st.config.connection_params } ∧
      evs = [Event.rebuild st.config.connection_params])) := by
  simp only [TrinoClient.ensure_connection, TrinoClient.connect] at h
  rcases hc : st.conn with _ | p <;> rw [hc] at h
  · simp only [Option.isNone_none, if_true] at h
    rcases hce : eng.connectErr st.config.connection_params with _ | e <;> rw [hce] at h
    · simp only [Prod.mk.injEq, Except.ok.injEq] at h
      obtain ⟨h1, h2⟩ := h
      subst h1; subst h2
      exact ⟨rfl, rfl, rfl, Or.inr ⟨rfl, rfl, rfl, rfl⟩⟩
    · simp at h
  · simp only [Option.isNone_some, Bool.false_eq_true, if_false] at h
    simp only [Prod.mk.injEq, Except.ok.injEq] at h
    obtain ⟨h1, h2⟩ := h
    subst h1; subst h2
    exact ⟨rfl, rfl, rfl, Or.inl ⟨rfl, rfl, rfl⟩⟩

/-- When the engine accepts every connection attempt, `ensure_connection`
succeeds and afterwards a connection exists. -/
lemma ensure_total (st : TrinoClient) (eng : Engine)
    (hconn : ∀ p, eng.connectErr p = none) :
    ∃ st' evs, st.ensure_connection eng = (Except.ok st', evs) ∧ st'.conn.isSome ∧
      (st.conn = none → st'.conn = some st.config.connection_params) ∧
      (st.conn.isSome → st' = st) := by
  rcases hc : st.conn with _ | p
  · refine ⟨{ st with conn := some st.config.connection_params },
      [Event.rebuild st.config.connection_params], ?_, rfl, fun _ => rfl, ?_⟩
    · simp [TrinoClient.ensure_connection, TrinoClient.connect, hc, hconn]
    · intro hs; simp at hs
  · refine ⟨st, [], ?_, by rw [hc]; rfl, ?_, fun _ => rfl⟩
    · simp [TrinoClient.ensure_connection, hc]
    · intro hn; simp at hn

/-- Helper: a `TrinoClient` whose connection exists keeps it through
`ensure_connection`, for any engine. -/
lemma ensure_some (st : TrinoClient) (eng : Engine) (hs : st.conn.isSome) :
    st.ensure_connection eng = (Except.ok st, []) := by
  have hn : st.conn.isNone = false := by
    rcases Option.isSome_iff_exists.mp hs with ⟨p, hp⟩
    rw [hp]; rfl
  simp [TrinoClient.ensure_connection, hn]

/-- A raw cursor result whose statement yields no result set
(`cursor.description` is `None`). -/
def noDescRaw : RawResult :=
  { queryId := "q2", description := none, rows := [[Value.int 7]], timeMs := 3 }

/-- An engine on which connects succeed and every statement returns
`noDescRaw`. -/
def noDescEngine : Engine := ⟨fun _ => none, fun _ _ => Except.ok noDescRaw⟩

/-- The result of `execute_query noDescEngine (init hiveConfig) "CALL t"`. -/
def c10res : TrinoQueryResult :=
  { query_id := "q2", columns := [], rows := [], query_time_ms := 3, row_count := 0 }

/-- The client state after any successful catalog-defaulted `execute_query`
on a fresh `hiveConfig` client whose connect succeeded. -/
def postHiveState : TrinoClient :=
  { config := hiveConfig
    conn := some hiveConfig.connection_params
    current_catalog := some "hive"
    current_schema := none }

/-- The event trace of a successful first `execute_query` of `sql` on a
fresh `hiveConfig` client. -/
def postHiveEvs (sql : String) : List Event :=
  [Event.rebuild hiveConfig.connection_params, Event.stmt sql]

/-- C10: every `TrinoQueryResult` returned by `execute_query` has
`row_count` equal to the length of its `rows` list, and whenever the
cursor reports no column descriptors (a `None` or empty `description`),
both `columns` and `rows` are empty. -/
theorem c10_row_count_invariant (eng : Engine) (st : TrinoClient) (sql : String)
    (catalog schema : Option String) (r : TrinoQueryResult) (st' : TrinoClient)
    (evs : List Event)
    (h : TrinoClient.execute_query eng st sql catalog schema = (Except.ok r, st', evs)) :
    r.row_count = r.rows.length ∧
    (∀ raw, eng.exec (st'.conn.bind (fun p => p.catalog)) sql = Except.ok raw →
      (raw.description = none ∨ raw.description = some []) →
      r.columns = [] ∧ r.rows = []) := by
  obtain ⟨evs', hrq⟩ := execute_query_ok eng st sql catalog schema r st' evs h
  obtain ⟨-, raw, hexec, hr⟩ := runQuery_ok st' eng sql r st' evs' hrq
  constructor
  · rw [hr]
  · intro raw' hexec' hdesc
    have hrr : raw' = raw := by
      rw [hexec] at hexec'
      exact (Except.ok.inj hexec').symm
    subst hrr
    have hfalse : descTruthy raw'.description = false := by
      rcases hdesc with h1 | h1 <;> rw [h1] <;> rfl
    rw [hr]
    simp [hfalse]

/-- C10 witness: on an engine whose cursor reports no description, the
returned result has empty columns and rows and a row count of zero. -/
theorem c10_row_count_witness :
    c10res.row_count = c10res.rows.length ∧ c10res.columns = [] ∧ c10res.rows = [] :=
  have h := c10_row_count_invariant noDescEngine (TrinoClient.init hiveConfig)
    "CALL t" none none c10res postHiveState (postHiveEvs "CALL t") rfl
  ⟨h.1, h.2 noDescRaw rfl (Or.inl rfl)⟩

/-- C5: whenever the underlying query execution raises, the
`execute_query` tool handler does not raise; it returns a dict carrying
the error message under `"error"` and the original SQL under
`"query"`. -/
theorem c5_handler_error_shape (eng : Engine) (st : TrinoClient) (sql : String)
    (catalog schema : Option String) (msg : String)
    (h : (TrinoClient.execute_query eng st sql catalog schema).1 = Except.error msg) :
    (toolExecuteQuery eng st sql catalog schema).1
      = Value.dict [("error", Value.str msg), ("query", Value.str sql)] := by
  simp only [toolExecuteQuery]
  rcases hE : TrinoClient.execute_query eng st sql catalog schema with ⟨r, st2, evs⟩
  rw [hE] at h
  dsimp at h
  subst h
  rfl

/-- C5 witness: invalid SQL on a concrete engine yields the
`{"error", "query"}` dict. -/
theorem c5_handler_error_shape_witness :
    (toolExecuteQuery sqlFailEngine (TrinoClient.init hiveConfig) "SELEC 1").1
      = Value.dict [("error", Value.str "line 1:1: mismatched input"),
                    ("query", Value.str "SELEC 1")] :=
  c5_handler_error_shape sqlFailEngine (TrinoClient.init hiveConfig) "SELEC 1"
    none none "line 1:1: mismatched input" rfl

/-- C3 counterexample: one `execute_query` call requesting catalog
`memory` mutates the configuration object's `catalog` field away from its
construction-time value `hive`, so the configuration's original fields do
not all survive a sequence of `execute_query` calls. -/
theorem c3_config_mutation_counterexample :
    (TrinoClient.execute_query okEngine (TrinoClient.init hiveConfig) "SELECT 1"
        (some "memory") none).2.1.config.catalog = some "memory"
    ∧ hiveConfig.catalog = some "hive"
    ∧ (some "memory" : Option String) ≠ some "hive" :=
  ⟨rfl, rfl, by decide⟩

/-- C3 (amended): `execute_query` mutates exactly one configuration
field: `catalog` is set to the call's effective catalog when that is
truthy (and left unchanged otherwise); every other configuration field —
including the default schema — keeps its construction-time value. -/
theorem c3_config_frame (eng : Engine) (st : TrinoClient) (sql : String)
    (catalog schema : Option String) :
    (TrinoClient.execute_query eng st sql catalog schema).2.1.config
      = { st.config with
          catalog := if strTruthy (pyOr catalog st.current_catalog) then
              pyOr catalog st.current_catalog
            else st.config.catalog } := by
  simp only [TrinoClient.execute_query]
  rcases hE : ((st.rebindForCatalog catalog schema).1.ensure_connection eng) with ⟨res, evs₂⟩
  cases res with
  | error e =>
    dsimp only
    rw [rebind_config]
  | ok st₅ =>
    dsimp only
    rw [runQuery_state]
    have hok := ensure_ok _ eng st₅ evs₂ hE
    rw [hok.1, rebind_config]

/-- `catalog or self.current_catalog` with `catalog=None` is the current
catalog. -/
lemma pyOr_none_left (b : Option String) : pyOr none b = b := rfl

/-- When every connect succeeds, `ensure_connection` cannot raise. -/
lemma ensure_no_error (st : TrinoClient) (eng : Engine)
    (hconn : ∀ p, eng.connectErr p = none) (e : String) (evs : List Event) :
    st.ensure_connection eng ≠ (Except.error e, evs) := by
  obtain ⟨st', evs', heq, -⟩ := ensure_total st eng hconn
  rw [heq]
  intro hcontra
  simp at hcontra

/-- C2 counterexample: after one call requesting catalog `memory`, a call
that omits the catalog runs on a connection bound to `memory`, not to the
configuration's construction-time default `hive`. -/
theorem c2_default_catalog_counterexample :
    ((TrinoClient.execute_query okEngine
        (TrinoClient.execute_query okEngine (TrinoClient.init hiveConfig) "SELECT 1"
          (some "memory") none).2.1
        "SELECT 1" none none).2.1.conn.bind (fun p => p.catalog)) = some "memory"
    ∧ hiveConfig.catalog = some "hive"
    ∧ (some "memory" : Option String) ≠ some "hive" :=
  ⟨rfl, rfl, by decide⟩

/-- C2 (amended): when the catalog argument is omitted, the query runs on
a connection bound to the client's *current* catalog — the catalog of the
most recent call that requested one, initially the configuration default —
rather than always the construction-time default. -/
theorem c2_omitted_catalog_uses_current (eng : Engine) (st : TrinoClient)
    (sql : String)
    (hconn : ∀ p, eng.connectErr p = none)
    (hinv : st.config.catalog = st.current_catalog)
    (hbound : ∀ p, st.conn = some p → p.catalog = st.current_catalog) :
    ((TrinoClient.execute_query eng st sql none none).2.1.conn.bind
        (fun p => p.catalog)) = st.current_catalog := by
  have hdec : decide (pyOr none st.current_catalog ≠ st.current_catalog) = false :=
    decide_eq_false (fun h => h (pyOr_none_left _))
  have h4conn : (st.rebindForCatalog none none).1.conn = st.conn := by
    rw [rebind_conn, hdec, Bool.and_false, if_neg]
    simp
  have h4cfg : (st.rebindForCatalog none none).1.config.catalog = st.current_catalog := by
    simp only [rebind_config, pyOr_none_left]
    by_cases ht : strTruthy st.current_catalog = true
    · simp [ht]
    · simp only [Bool.not_eq_true] at ht
      simp [ht, hinv]
  simp only [TrinoClient.execute_query]
  rcases hE : ((st.rebindForCatalog none none).1.ensure_connection eng) with ⟨res, evs₂⟩
  cases res with
  | error e => exact absurd hE (ensure_no_error _ eng hconn e evs₂)
  | ok st₅ =>
    dsimp only
    rw [runQuery_state]
    obtain ⟨hcfg₅, -, -, hdisj⟩ := ensure_ok _ eng st₅ evs₂ hE
    rcases hdisj with ⟨hsome, hst, -⟩ | ⟨-, -, hst, -⟩
    · subst hst
      rw [h4conn] at hsome ⊢
      obtain ⟨p, hp⟩ := Option.isSome_iff_exists.mp hsome
      rw [hp]
      exact hbound p hp
    · subst hst
      have hcp : ∀ c : TrinoConfig, c.connection_params.catalog = c.catalog :=
        fun _ => rfl
      simp only [Option.some_bind]
      rw [hcp]
      exact h4cfg

/-- C2 witness: on a fresh client with default catalog `hive`, an
omitted-catalog call runs bound to `hive`. -/
theorem c2_omitted_catalog_witness :
    ((TrinoClient.execute_query okEngine (TrinoClient.init hiveConfig) "SELECT 1"
        none none).2.1.conn.bind (fun p => p.catalog)) = some "hive" :=
  c2_omitted_catalog_uses_current okEngine (TrinoClient.init hiveConfig) "SELECT 1"
    (fun _ => rfl) rfl (fun _p hp => Option.noConfusion hp)

/-- C4 counterexample: when the engine kill statement errors, the
`cancel_query` tool handler returns `{"success", "message"}` — there is no
`"error"` or `"query_id"` key, so the claimed
`{success, error, query_id}` shape does not occur for engine-side
failures. -/
theorem c4_cancel_shape_counterexample :
    (toolCancelQuery sqlFailEngine (TrinoClient.init hiveConfig) "nonexistent_id").1
      = Value.dict [("success", Value.bool false),
                    ("message", Value.str "Failed to cancel query nonexistent_id")]
    ∧ (toolCancelQuery sqlFailEngine (TrinoClient.init hiveConfig) "nonexistent_id").1.keys
      = ["success", "message"]
    ∧ ["success", "message"] ≠ ["success", "error", "query_id"] :=
  ⟨rfl, rfl, by decide⟩

/-- C4 (amended): an engine-side cancellation failure (the kill statement
errors) is caught inside `TrinoClient.cancel_query`, which returns
`False`; the tool handler then returns
`{"success": false, "message": "Failed to cancel query <id>"}` — never
raising out of the handler.  (The `{success, error, query_id}` shape is
produced only when `TrinoClient.cancel_query` itself raises, i.e. when
establishing the connection fails.) -/
theorem c4_cancel_engine_failure_message (eng : Engine) (st : TrinoClient)
    (query_id : String)
    (hconn : ∀ p, eng.connectErr p = none)
    (hkill : ∀ cat, ∃ m, eng.exec cat (killQuerySql query_id) = Except.error m) :
    (toolCancelQuery eng st query_id).1
      = Value.dict [("success", Value.bool false),
                    ("message", Value.str ("Failed to cancel query " ++ query_id))] := by
  simp only [toolCancelQuery, TrinoClient.cancel_query]
  obtain ⟨st₁, evs₁, hEq, hsome, -, -⟩ := ensure_total st eng hconn
  rw [hEq]
  dsimp only
  rcases hX : TrinoClient.execute_query eng st₁ (killQuerySql query_id) with ⟨r, st₂, evs₂⟩
  cases r with
  | ok res =>
    exfalso
    obtain ⟨evs', hrq⟩ :=
      execute_query_ok eng st₁ (killQuerySql query_id) none none res st₂ evs₂ hX
    obtain ⟨-, raw, hexec, -⟩ := runQuery_ok st₂ eng (killQuerySql query_id) res st₂ evs' hrq
    obtain ⟨m, hm⟩ := hkill (st₂.conn.bind (fun p => p.catalog))
    rw [hm] at hexec
    exact Except.noConfusion hexec
  | error m => rfl

/-- C4 witness: a concrete engine that errors on every statement makes the
handler return the failure message dict. -/
theorem c4_cancel_engine_failure_witness :
    (toolCancelQuery sqlFailEngine postHiveState "q_42").1
      = Value.dict [("success", Value.bool false),
                    ("message", Value.str "Failed to cancel query q_42")] :=
  c4_cancel_engine_failure_message sqlFailEngine postHiveState "q_42"
    (fun _ => rfl) (fun _ => ⟨"line 1:1: mismatched input", rfl⟩)

/-- Folding the `row_dict[col] = row[j]` loop body over the columns
enumerated from `n`, into an accumulator whose keys avoid all the
remaining columns, appends the column/value zip. -/
lemma buildRowDict_go (cols : List String) :
    ∀ (vals row : List Value) (n : Nat) (d : List (String × Value)),
      (∀ k, vals.get? k = row.get? (n + k)) →
      cols.length ≤ vals.length →
      cols.Nodup →
      (∀ c ∈ cols, (d.any (fun p => p.1 == c)) = false) →
      List.foldlM
          (fun d jc =>
            match row.get? jc.1 with
            | some v => Except.ok (dictInsert d jc.2 v)
            | none => Except.error "list index out of range")
          d (List.enumFrom n cols)
        = Except.ok (d ++ cols.zip vals) := by
  induction cols with
  | nil =>
    intro vals row n d _ _ _ _
    simp
    rfl
  | cons c cs ih =>
    intro vals row n d hv hlen hnd hfresh
    cases vals with
    | nil => simp at hlen
    | cons v vs =>
      have hrow : row.get? n = some v := by
        have h0 := hv 0
        simp only [List.get?_cons_zero, Nat.add_zero] at h0
        exact h0.symm
      have hf : (d.any (fun p => p.1 == c)) = false :=
        hfresh c (List.mem_cons_self c cs)
      rw [show List.enumFrom n (c :: cs) = (n, c) :: List.enumFrom (n + 1) cs from rfl]
      rw [List.foldlM_cons]
      simp only [hrow]
      rw [show (Except.ok (dictInsert d c v) : Except String (List (String × Value)))
            >>= (fun d' => List.foldlM
              (fun d jc =>
                match row.get? jc.1 with
                | some v => Except.ok (dictInsert d jc.2 v)
                | none => Except.error "list index out of range") d'
              (List.enumFrom (n + 1) cs))
          = List.foldlM
              (fun d jc =>
                match row.get? jc.1 with
                | some v => Except.ok (dictInsert d jc.2 v)
                | none => Except.error "list index out of range")
              (dictInsert d c v) (List.enumFrom (n + 1) cs) from rfl]
      have hins : dictInsert d c v = d ++ [(c, v)] := by
        simp only [dictInsert, hf, Bool.false_eq_true, if_false]
      rw [hins]
      have hnd' := (List.nodup_cons.mp hnd).2
      have hnotmem := (List.nodup_cons.mp hnd).1
      rw [ih vs row (n + 1) (d ++ [(c, v)])
        (fun k => by
          have hk := hv (k + 1)
          simp only [List.get?_cons_succ] at hk
          rw [hk]
          congr 1
          omega)
        (by simpa using hlen)
        hnd'
        (by
          intro c' hc'
          rw [List.any_append]
          rw [hfresh c' (List.mem_cons_of_mem _ hc')]
          have hne : (c == c') = false := by
            rw [beq_eq_false_iff_ne]
            intro he
            exact hnotmem (he ▸ hc')
          simp [hne])]
      simp [List.zip_cons_cons]

/-- `buildRowDict` on duplicate-free columns and a row at least as long is
exactly the column/value zip. -/
lemma buildRowDict_zip (cols : List String) (row : List Value)
    (hnd : cols.Nodup) (hlen : cols.length ≤ row.length) :
    buildRowDict cols row = Except.ok (cols.zip row) := by
  have h := buildRowDict_go cols row row 0 []
    (fun k => by simp) hlen hnd (fun c _ => rfl)
  simpa [buildRowDict, List.enum] using h

/-- A `mapM` over `Except` whose body always succeeds is the
corresponding `map`. -/
lemma mapM_ok {α β : Type} (f : α → Except String β) (g : α → β) :
    ∀ l : List α, (∀ a ∈ l, f a = Except.ok (g a)) →
      l.mapM f = Except.ok (l.map g) := by
  intro l
  induction l with
  | nil => intro _; rfl
  | cons a as ih =>
    intro h
    rw [List.mapM_cons, h a (List.mem_cons_self a as),
      ih (fun x hx => h x (List.mem_cons_of_mem _ hx))]
    rfl

/-- The preview block converts the first (up to) 20 rows into
column-keyed records, each the column/value zip. -/
lemma previewRows_zip (cols : List String) (rows : List (List Value))
    (hnd : cols.Nodup) (hlen : ∀ row ∈ rows, cols.length ≤ row.length) :
    previewRows cols rows
      = Except.ok ((rows.take 20).map (fun row => cols.zip row)) := by
  unfold previewRows
  exact mapM_ok _ _ _
    (fun row hrow => buildRowDict_zip cols row hnd (hlen row (List.take_subset _ _ hrow)))

/-- The `/api/query` shaping converts every row (unbounded) into the
column/value zip. -/
lemma apiFormatRows_zip (cols : List String) (rows : List (List Value))
    (hnd : cols.Nodup) (hlen : ∀ row ∈ rows, cols.length ≤ row.length) :
    apiFormatRows cols rows = Except.ok (rows.map (fun row => cols.zip row)) := by
  unfold apiFormatRows
  exact mapM_ok _ _ _ (fun row hrow => buildRowDict_zip cols row hnd (hlen row hrow))

/-- C6: for every query result with duplicate-free columns and
well-formed rows, the `execute_query` tool handler's success payload has
`preview_rows` of length `min 20 (len rows)`, each preview row being the
column-keyed record zipping cell `i` with column `i` (keys exactly the
columns), alongside the full column list and the full row count. -/
theorem c6_preview_shape (eng : Engine) (st : TrinoClient) (sql : String)
    (catalog schema : Option String) (r : TrinoQueryResult) (st' : TrinoClient)
    (evs : List Event)
    (h : TrinoClient.execute_query eng st sql catalog schema = (Except.ok r, st', evs))
    (hnd : r.columns.Nodup)
    (hlen : ∀ row ∈ r.rows, r.columns.length ≤ row.length) :
    (toolExecuteQuery eng st sql catalog schema).1
      = Value.dict
          [("query_id", Value.str r.query_id),
           ("columns", Value.list (r.columns.map Value.str)),
           ("row_count", Value.int r.row_count),
           ("query_time_ms", Value.int r.query_time_ms),
           ("preview_rows",
             Value.list ((r.rows.take 20).map
               (fun row => Value.dict (r.columns.zip row)))),
           ("resource_path", Value.str ("trino://query/" ++ r.query_id))]
    ∧ (r.rows.take 20).length = min 20 r.rows.length
    ∧ (∀ row ∈ r.rows.take 20, (r.columns.zip row).map Prod.fst = r.columns) := by
  refine ⟨?_, List.length_take 20 r.rows, ?_⟩
  · simp only [toolExecuteQuery]
    rw [h]
    dsimp only
    rw [previewRows_zip r.columns r.rows hnd hlen]
    dsimp only
    rw [List.map_map]
    rfl
  · intro row hrow
    exact List.map_fst_zip _ _ (hlen row (List.take_subset _ _ hrow))

/-- The query result of `execute_query okEngine (init hiveConfig)
"SELECT 1 AS x"`. -/
def c6res : TrinoQueryResult :=
  { query_id := "q1", columns := ["x"], rows := [[Value.int 1]],
    query_time_ms := 5, row_count := 1 }

/-- C6 witness: the handler's payload for a concrete one-row result. -/
theorem c6_preview_shape_witness :
    (toolExecuteQuery okEngine (TrinoClient.init hiveConfig) "SELECT 1 AS x").1
      = Value.dict
          [("query_id", Value.str "q1"),
           ("columns", Value.list [Value.str "x"]),
           ("row_count", Value.int 1),
           ("query_time_ms", Value.int 5),
           ("preview_rows", Value.list [Value.dict [("x", Value.int 1)]]),
           ("resource_path", Value.str "trino://query/q1")] :=
  (c6_preview_shape okEngine (TrinoClient.init hiveConfig) "SELECT 1 AS x"
    none none c6res postHiveState (postHiveEvs "SELECT 1 AS x") rfl
    (by decide)
    (by
      intro row hrow
      rw [show c6res.rows = [[Value.int 1]] from rfl, List.mem_singleton] at hrow
      subst hrow
      exact Nat.le.refl)).1

/-- The engine used for the round-trip: every statement answers like
`SELECT 1 AS x`. -/
def xEngine : Engine :=
  ⟨fun _ => none,
   fun _ _ => Except.ok
     { queryId := "qX", description := some ["x"],
       rows := [[Value.int 1]], timeMs := 2 }⟩

/-- The query result of `execute_query xEngine (init hiveConfig)
"SELECT 1 AS x"`. -/
def c8res : TrinoQueryResult :=
  { query_id := "qX", columns := ["x"], rows := [[Value.int 1]],
    query_time_ms := 2, row_count := 1 }

/-- C8: executing `SELECT 1 AS x` and shaping the full result with the
`/api/query` row-object conversion yields exactly `[{"x": 1}]`; in
general the conversion zips every positional row with the column names
over all rows, unbounded. -/
theorem c8_row_objects_round_trip (eng : Engine) (cfg : TrinoConfig)
    (r : TrinoQueryResult) (st' : TrinoClient) (evs : List Event)
    (qid : String) (t : Nat)
    (hsel : ∀ cat, eng.exec cat "SELECT 1 AS x"
        = Except.ok { queryId := qid, description := some ["x"],
                      rows := [[Value.int 1]], timeMs := t })
    (h : TrinoClient.execute_query eng (TrinoClient.init cfg) "SELECT 1 AS x" none none
        = (Except.ok r, st', evs)) :
    apiFormatRows r.columns r.rows = Except.ok [[("x", Value.int 1)]]
    ∧ (∀ cols rows, cols.Nodup → (∀ row ∈ rows, cols.length ≤ row.length) →
        apiFormatRows cols rows = Except.ok (rows.map (fun row => cols.zip row))) := by
  obtain ⟨evs', hrq⟩ :=
    execute_query_ok eng (TrinoClient.init cfg) "SELECT 1 AS x" none none r st' evs h
  obtain ⟨-, raw, hexec, hr⟩ := runQuery_ok st' eng "SELECT 1 AS x" r st' evs' hrq
  have hraw : raw = { queryId := qid, description := some ["x"],
                      rows := [[Value.int 1]], timeMs := t } := by
    rw [hsel] at hexec
    exact (Except.ok.inj hexec).symm
  subst hraw
  constructor
  · rw [hr]
    rfl
  · intro cols rows hnd hlen
    exact apiFormatRows_zip cols rows hnd hlen

/-- C8 witness: the round trip on a concrete engine. -/
theorem c8_row_objects_round_trip_witness :
    apiFormatRows c8res.columns c8res.rows = Except.ok [[("x", Value.int 1)]] :=
  (c8_row_objects_round_trip xEngine hiveConfig c8res postHiveState
    (postHiveEvs "SELECT 1 AS x") "qX" 2 (fun _ => rfl) rfl).1

/-- The cursor phase's trace: the schema-application `USE` statement when
both a current schema and catalog are set, then the query itself —
whether or not the query succeeds. -/
lemma runQuery_evs (st : TrinoClient) (eng : Engine) (sql : String) :
    (st.runQuery eng sql).2.2
      = (if strTruthy st.current_schema && strTruthy st.current_catalog then
          [Event.stmt ("USE " ++ (st.current_catalog.getD "") ++ "."
                        ++ (st.current_schema.getD ""))]
        else []) ++ [Event.stmt sql] := by
  simp only [TrinoClient.runQuery]
  cases hE : eng.exec (st.conn.bind (fun p => p.catalog)) sql <;> simp [hE]

/-- C7: a failure to establish the catalog-bound connection propagates
out of `execute_query` (fatal to the call, before any statement is
submitted), whereas a failing schema-application `USE catalog.schema`
statement is swallowed and the query is still submitted and its result
returned. -/
theorem c7_connect_fatal_schema_degraded (eng : Engine) (st : TrinoClient)
    (sql : String) (catalog schema : Option String) (e : String)
    (p : ConnParams) (c s : String) (raw : RawResult) (eUse : String) :
    (st.conn = none →
      eng.connectErr ((st.rebindForCatalog catalog schema).1.config.connection_params)
        = some e →
      TrinoClient.execute_query eng st sql catalog schema
        = (Except.error e, (st.rebindForCatalog catalog schema).1, []))
    ∧
    (st.conn = some p → st.current_catalog = some c → c ≠ "" →
      st.current_schema = some s → s ≠ "" →
      eng.exec p.catalog ("USE " ++ c ++ "." ++ s) = Except.error eUse →
      eng.exec p.catalog sql = Except.ok raw →
      TrinoClient.execute_query eng st sql none none
        = (Except.ok
            { query_id := raw.queryId
              columns := if descTruthy raw.description then raw.description.getD [] else []
              rows := if descTruthy raw.description then raw.rows else []
              query_time_ms := raw.timeMs
              row_count := (if descTruthy raw.description then raw.rows else []).length },
           (st.rebindForCatalog none none).1,
           [Event.stmt ("USE " ++ c ++ "." ++ s), Event.stmt sql])) := by
  constructor
  · intro hcn hce
    have h4 : (st.rebindForCatalog catalog schema).1.conn = none := by
      rw [rebind_conn, hcn]
      simp
    have hens : (st.rebindForCatalog catalog schema).1.ensure_connection eng
        = (Except.error e, []) := by
      simp [TrinoClient.ensure_connection, TrinoClient.connect, h4, hce]
    simp only [TrinoClient.execute_query]
    rw [hens]
    dsimp only
    rw [rebind_evs, hcn]
    simp
  · intro hcp hcc hcne hcs hsne hUse hsql
    have htc : strTruthy (some c) = true := by simp [strTruthy, hcne]
    have hts : strTruthy (some s) = true := by simp [strTruthy, hsne]
    have hdec : decide (pyOr none st.current_catalog ≠ st.current_catalog) = false :=
      decide_eq_false (fun hne => hne (pyOr_none_left _))
    have hcond : (st.conn.isSome
        && decide (pyOr none st.current_catalog ≠ st.current_catalog)) = false := by
      rw [hdec, Bool.and_false]
    have h4conn : (st.rebindForCatalog none none).1.conn = some p := by
      rw [rebind_conn, hcond, if_neg (by simp), hcp]
    have h4cc : (st.rebindForCatalog none none).1.current_catalog = some c := by
      rw [rebind_current_catalog, pyOr_none_left, hcc]
    have h4cs : (st.rebindForCatalog none none).1.current_schema = some s := by
      rw [rebind_current_schema]
      simpa [strTruthy] using hcs
    have h4evs : (st.rebindForCatalog none none).2 = [] := by
      rw [rebind_evs, hcond, if_neg (by simp)]
    simp only [TrinoClient.execute_query]
    rw [ensure_some _ eng (by rw [h4conn]; rfl)]
    dsimp only
    simp only [TrinoClient.runQuery, h4conn, h4cc, h4cs, Option.some_bind, hsql,
      Option.getD_some, htc, hts, Bool.and_self, if_true, h4evs]
    simp

/-- A configuration with both a default catalog and a default schema. -/
def schemaConfig : TrinoConfig := { catalog := some "hive", schema := some "default" }

/-- A connected client whose current schema is set (so the cursor phase
attempts `USE hive.default`). -/
def schemaClient : TrinoClient :=
  { config := schemaConfig
    conn := some schemaConfig.connection_params
    current_catalog := some "hive"
    current_schema := some "default" }

/-- C7 witness: a refused connect is fatal with no statement submitted; a
failing `USE` on a connected client still returns the query's result with
both statements submitted. -/
theorem c7_connect_fatal_schema_degraded_witness :
    (TrinoClient.execute_query noConnectEngine (TrinoClient.init hiveConfig)
        "SELECT 1" none none
      = (Except.error "connection refused",
         ((TrinoClient.init hiveConfig).rebindForCatalog none none).1, []))
    ∧ (TrinoClient.execute_query useFailEngine schemaClient "SELECT 1" none none
      = (Except.ok { query_id := "q1", columns := ["x"], rows := [[Value.int 1]],
                     query_time_ms := 5, row_count := 1 },
         (schemaClient.rebindForCatalog none none).1,
         [Event.stmt "USE hive.default", Event.stmt "SELECT 1"])) :=
  ⟨(c7_connect_fatal_schema_degraded noConnectEngine (TrinoClient.init hiveConfig)
      "SELECT 1" none none "connection refused" hiveConfig.connection_params
      "x" "y" sampleRaw "z").1 rfl rfl,
   (c7_connect_fatal_schema_degraded useFailEngine schemaClient
      "SELECT 1" none none "unused" schemaConfig.connection_params
      "hive" "default" sampleRaw "Schema not found").2
     rfl rfl (by decide) rfl (by decide) rfl rfl⟩

/-- After `execute_query(sql, catalog=c)` with a truthy `c` and an
always-accepting engine, the client is connected, its current catalog is
`c`, and its current schema is what it was (schema argument omitted). -/
lemma execute_post (eng : Engine) (st₀ : TrinoClient) (sql : String) (c : String)
    (hconn : ∀ p, eng.connectErr p = none) (hc : c ≠ "") :
    (TrinoClient.execute_query eng st₀ sql (some c) none).2.1.conn.isSome
    ∧ (TrinoClient.execute_query eng st₀ sql (some c) none).2.1.current_catalog = some c
    ∧ (TrinoClient.execute_query eng st₀ sql (some c) none).2.1.current_schema
        = st₀.current_schema := by
  have htc : strTruthy (some c) = true := by simp [strTruthy, hc]
  have hpy : pyOr (some c) st₀.current_catalog = some c := by simp [pyOr, htc]
  simp only [TrinoClient.execute_query]
  rcases hE : ((st₀.rebindForCatalog (some c) none).1.ensure_connection eng) with ⟨res, evs₂⟩
  cases res with
  | error e => exact absurd hE (ensure_no_error _ eng hconn e evs₂)
  | ok st₅ =>
    dsimp only
    rw [runQuery_state]
    obtain ⟨-, hcc, hcs, hdisj⟩ := ensure_ok _ eng st₅ evs₂ hE
    refine ⟨?_, ?_, ?_⟩
    · rcases hdisj with ⟨hsome, hst, -⟩ | ⟨-, -, hst, -⟩
      · subst hst; exact hsome
      · subst hst; rfl
    · rw [hcc, rebind_current_catalog, hpy]
    · rw [hcs, rebind_current_schema]
      simp [strTruthy]

/-- Requesting a truthy catalog different from the current one on a
connected client (engine accepting all connects) tears the connection
down, reconnects with the new catalog as a connection parameter, and
submits only the query itself. -/
lemma execute_switch (eng : Engine) (st : TrinoClient) (sql : String) (c₂ : String)
    (hconn : ∀ p, eng.connectErr p = none)
    (hsome : st.conn.isSome)
    (hc₂ : c₂ ≠ "")
    (hne : some c₂ ≠ st.current_catalog)
    (hschema : st.current_schema = none) :
    (TrinoClient.execute_query eng st sql (some c₂) none).2.2
      = [Event.teardown,
         Event.rebuild ({ st.config with catalog := some c₂ }).connection_params,
         Event.stmt sql]
    ∧ (TrinoClient.execute_query eng st sql (some c₂) none).2.1.conn
      = some ({ st.config with catalog := some c₂ }).connection_params
    ∧ (TrinoClient.execute_query eng st sql (some c₂) none).2.1.current_catalog
      = some c₂ := by
  have htc : strTruthy (some c₂) = true := by simp [strTruthy, hc₂]
  have hpy : pyOr (some c₂) st.current_catalog = some c₂ := by simp [pyOr, htc]
  have hcond : (st.conn.isSome
      && decide (pyOr (some c₂) st.current_catalog ≠ st.current_catalog)) = true := by
    rw [hpy, hsome, decide_eq_true hne]
    rfl
  have h4conn : (st.rebindForCatalog (some c₂) none).1.conn = none := by
    rw [rebind_conn, hcond, if_pos rfl]
  have h4evs : (st.rebindForCatalog (some c₂) none).2 = [Event.teardown] := by
    rw [rebind_evs, hcond, if_pos rfl]
  have h4cfg : (st.rebindForCatalog (some c₂) none).1.config
      = { st.config with catalog := some c₂ } := by
    rw [rebind_config]
    simp [hpy, htc]
  have h4cc : (st.rebindForCatalog (some c₂) none).1.current_catalog = some c₂ := by
    rw [rebind_current_catalog, hpy]
  have h4cs : (st.rebindForCatalog (some c₂) none).1.current_schema = none := by
    rw [rebind_current_schema]
    simpa [strTruthy] using hschema
  have hens : (st.rebindForCatalog (some c₂) none).1.ensure_connection eng
      = (Except.ok { (st.rebindForCatalog (some c₂) none).1 with
            conn := some ({ st.config with catalog := some c₂ }).connection_params },
         [Event.rebuild ({ st.config with catalog := some c₂ }).connection_params]) := by
    have hn : (st.rebindForCatalog (some c₂) none).1.conn.isNone = true := by
      rw [h4conn]; rfl
    simp only [TrinoClient.ensure_connection, TrinoClient.connect, hn, if_true, h4cfg,
      hconn]
  simp only [TrinoClient.execute_query]
  rw [hens]
  dsimp only
  refine ⟨?_, ?_, ?_⟩
  · rw [h4evs, runQuery_evs]
    have : ({ (st.rebindForCatalog (some c₂) none).1 with
        conn := some ({ st.config with catalog := some c₂ }).connection_params
          } : TrinoClient).current_schema = none := h4cs
    rw [this]
    simp [strTruthy]
  · rw [runQuery_state]
  · rw [runQuery_state]
    exact h4cc

/-- C1: for distinct truthy catalogs `c₁ ≠ c₂` (engine accepting all
connects, no schema in play), `execute_query(sql, catalog=c₁)` followed by
`execute_query(sql, catalog=c₂)` performs during the second call exactly
one teardown and one rebuild — with the new catalog supplied as a
connection parameter (`catalog := some c₂` in the connect arguments) and
no statement other than the query itself submitted — and afterwards the
connection's bound catalog and the client's current catalog equal `c₂`. -/
theorem c1_catalog_switch (eng : Engine) (st₀ : TrinoClient) (sql : String)
    (c₁ c₂ : String)
    (hconn : ∀ p, eng.connectErr p = none)
    (hc₁ : c₁ ≠ "") (hc₂ : c₂ ≠ "") (hne : c₁ ≠ c₂)
    (hschema : st₀.current_schema = none) :
    (TrinoClient.execute_query eng
        (TrinoClient.execute_query eng st₀ sql (some c₁) none).2.1
        sql (some c₂) none).2.2
      = [Event.teardown,
         Event.rebuild ({ (TrinoClient.execute_query eng st₀ sql (some c₁) none).2.1.config
             with catalog := some c₂ }).connection_params,
         Event.stmt sql]
    ∧ ({ (TrinoClient.execute_query eng st₀ sql (some c₁) none).2.1.config
           with catalog := some c₂ }).connection_params.catalog = some c₂
    ∧ (TrinoClient.execute_query eng
        (TrinoClient.execute_query eng st₀ sql (some c₁) none).2.1
        sql (some c₂) none).2.1.conn
      = some ({ (TrinoClient.execute_query eng st₀ sql (some c₁) none).2.1.config
             with catalog := some c₂ }).connection_params
    ∧ (TrinoClient.execute_query eng
        (TrinoClient.execute_query eng st₀ sql (some c₁) none).2.1
        sql (some c₂) none).2.1.current_catalog
      = some c₂ := by
  obtain ⟨h1some, h1cc, h1cs⟩ := execute_post eng st₀ sql c₁ hconn hc₁
  have h1cs' : (TrinoClient.execute_query eng st₀ sql (some c₁) none).2.1.current_schema
      = none := h1cs.trans hschema
  have hne' : some c₂
      ≠ (TrinoClient.execute_query eng st₀ sql (some c₁) none).2.1.current_catalog := by
    rw [h1cc]
    intro hcontra
    exact hne (Option.some.inj hcontra).symm
  obtain ⟨e1, e2, e3⟩ := execute_switch eng _ sql c₂ hconn h1some hc₂ hne' h1cs'
  exact ⟨e1, rfl, e2, e3⟩

/-- The client after the first call of the C1 scenario. -/
def c1FirstCall : TrinoClient :=
  (TrinoClient.execute_query okEngine (TrinoClient.init hiveConfig) "SELECT 1"
    (some "memory") none).2.1

/-- C1 witness: switching from `memory` to `postgres` on a concrete
engine produces exactly a teardown, a rebuild carrying
`catalog = postgres`, and the query statement. -/
theorem c1_catalog_switch_witness :
    (TrinoClient.execute_query okEngine c1FirstCall "SELECT 1" (some "postgres") none).2.2
      = [Event.teardown,
         Event.rebuild ({ c1FirstCall.config with catalog := some "postgres" }).connection_params,
         Event.stmt "SELECT 1"]
    ∧ ({ c1FirstCall.config with catalog := some "postgres" }).connection_params.catalog
      = some "postgres"
    ∧ (TrinoClient.execute_query okEngine c1FirstCall "SELECT 1" (some "postgres") none).2.1.conn
      = some ({ c1FirstCall.config with catalog := some "postgres" }).connection_params
    ∧ (TrinoClient.execute_query okEngine c1FirstCall "SELECT 1"
        (some "postgres") none).2.1.current_catalog = some "postgres" :=
  c1_catalog_switch okEngine (TrinoClient.init hiveConfig) "SELECT 1" "memory" "postgres"
    (fun _ => rfl) (by decide) (by decide) (by decide) rfl

/-- The C9 scenario's configuration, bound to catalog `c0` at startup. -/
def c9Config : TrinoConfig := { catalog := some "c0" }

/-- The shared client at the start of the C9 scenario: connected and
bound to `c0`. -/
def c9Init : TrinoClient :=
  { config := c9Config
    conn := some c9Config.connection_params
    current_catalog := some "c0"
    current_schema := none }

/-- The interleaving: thread A (`catalog="c1"`) runs its bookkeeping
(compute `use_catalog`, disconnect, set `current_catalog`, set
`config.catalog`), then thread B (`catalog="c2"`) runs its bookkeeping,
then A reconnects and submits, then B submits. -/
def c9Sched : List Bool :=
  [true, true, true, true, false, false, false, false, true, true, false, false]

/-- The outcome of running the two calls under `c9Sched`. -/
def c9Run : TrinoClient × ThreadState × ThreadState :=
  runSched c9Sched c9Init { arg := some "c1" } { arg := some "c2" }

/-- C9: the statements of `execute_query` run on the shared client with
no lock, so under the interleaving `c9Sched` the call that requested
catalog `c1` submits its query on a connection bound to `c2` — the
check/rebind-through-submit section is not executed under mutual
exclusion and a call's result need not reflect its own requested
catalog. -/
theorem c9_interleaving_wrong_catalog :
    c9Run.2.1.arg = some "c1"
    ∧ c9Run.2.1.submittedOn = some (some "c2")
    ∧ ("c1" : String) ≠ "c2" :=
  ⟨rfl, rfl, by decide⟩
